import Mathlib

/-!
Verification of the `weather-data` Supabase Edge function
(`src/supabase/functions/weather-data/index.ts`).

The source file contains two Deno handlers: a 5-day forecast handler
(`forecast_cache`, 6-hour freshness window) and a current-weather handler
(`weather_cache`, 30-minute freshness window).  We shallowly embed both.

Modelling conventions:
* JS numbers are modelled as `Rat` (all values appearing here are exact
  decimal fractions, so `Rat` is faithful for the arithmetic performed).
* Timestamps are epoch values: `dt` fields in seconds (as in the
  OpenWeatherMap payload), `Date.now()`-style values in milliseconds.
  ISO-8601 strings compared with `gte` in the cache query are
  order-isomorphic to their epoch values, so cache rows carry `Int`
  millisecond timestamps.
* The Supabase Edge runtime clock runs in UTC, so `Date.prototype.getDate`
  coincides with the UTC day of month; both `getDate` and the
  `toISOString().split('T')[0]` date key are computed from the same UTC
  civil-date decomposition (`civilFromDays`, the standard days-to-civil
  algorithm used by JS engines' proleptic Gregorian calendar).
-/

/-- `Math.round x` in JS: round half toward positive infinity. -/
def jsRound (x : Rat) : Int := ⌊x + 1/2⌋

/-- `parseFloat(x.toFixed(1))` in JS: round to the nearest multiple of
`0.1`, ties toward positive infinity (ECMA-262 picks the larger candidate). -/
def toFixed1 (x : Rat) : Rat := (jsRound (10 * x) : Rat) / 10

/-- Line 120: `parseFloat((item.wind.speed * 3.6).toFixed(1))` —
wind-speed conversion m/s → km/h applied to each 3-hour sample. -/
def windSpeedKmh (speed : Rat) : Rat := toFixed1 (speed * 3.6)

/-- Civil date `(year, month, day)` from a count of days since the epoch
(1970-01-01), proleptic Gregorian calendar (Howard Hinnant's algorithm,
the semantics of JS `Date` UTC decomposition). -/
def civilFromDays (z0 : Int) : Int × Int × Int :=
  let z := z0 + 719468
  let era := Int.fdiv z 146097
  let doe := z - era * 146097
  let yoe := Int.fdiv (doe - Int.fdiv doe 1460 + Int.fdiv doe 36524 - Int.fdiv doe 146096) 365
  let y := yoe + era * 400
  let doy := doe - (365 * yoe + Int.fdiv yoe 4 - Int.fdiv yoe 100)
  let mp := Int.fdiv (5 * doy + 2) 153
  let d := doy - Int.fdiv (153 * mp + 2) 5 + 1
  let m := mp + (if mp < 10 then 3 else -9)
  (y + (if m ≤ 2 then 1 else 0), m, d)

/-- The `(year, month, day)` UTC date of an epoch-millisecond timestamp:
`new Date(ms).toISOString().split('T')[0]` (line 119). -/
def dateKeyOfMs (ms : Int) : Int × Int × Int :=
  civilFromDays (Int.fdiv ms 86400000)

/-- `new Date(ms).getDate()` under the UTC runtime: the day-of-month
component of the civil date. -/
def getDateOfMs (ms : Int) : Int :=
  (dateKeyOfMs ms).2.2

/-- One 3-hour sample of the upstream forecast list: `item.dt` (epoch
seconds), `item.main.temp`, `item.weather[0].description`,
`item.wind.speed` (m/s). -/
structure ForecastItem where
  dt : Int
  temp : Rat
  description : String
  windSpeed : Rat
deriving DecidableEq

/-- Date key of a sample: `new Date(item.dt * 1000)` → ISO date (line 119). -/
def itemDateKey (it : ForecastItem) : Int × Int × Int :=
  dateKeyOfMs (it.dt * 1000)

/-- `new Date(item.dt * 1000).getDate()` (line 115). -/
def itemGetDate (it : ForecastItem) : Int :=
  getDateOfMs (it.dt * 1000)

/-- The per-date accumulator of the `dailyForecasts` map (lines 106–110). -/
structure DayGroup where
  temps : List Rat
  conditions : List String
  windSpeeds : List Rat
deriving DecidableEq

/-- One grouping step (lines 122–133): ensure an entry exists for `k`
(inserted at the end of the map in first-appearance order, as a JS `Map`
does), then push the sample's temperature, condition and converted wind
speed onto that entry.  The map is modelled as an association list in
insertion order. -/
def pushItem (m : List ((Int × Int × Int) × DayGroup)) (k : Int × Int × Int)
    (it : ForecastItem) : List ((Int × Int × Int) × DayGroup) :=
  if k ∈ m.map Prod.fst then
    m.map (fun p =>
      if p.1 = k then
        (p.1, { temps := p.2.temps ++ [it.temp],
                conditions := p.2.conditions ++ [it.description],
                windSpeeds := p.2.windSpeeds ++ [windSpeedKmh it.windSpeed] })
      else p)
  else
    m ++ [(k, { temps := [it.temp], conditions := [it.description],
                windSpeeds := [windSpeedKmh it.windSpeed] })]

/-- The `list.forEach` loop (lines 117–134) over the filtered samples. -/
def buildGroups (l : List ForecastItem) : List ((Int × Int × Int) × DayGroup) :=
  l.foldl (fun m it => pushItem m (itemDateKey it) it) []

/-- `Math.max(...temps)` over a (in the program provably non-empty) list;
on `[]` JS yields `-Infinity`, which has no `Rat` counterpart — the
default `0` is never reached (see the non-emptiness invariant). -/
def maxQ : List Rat → Rat
  | [] => 0
  | h :: t => t.foldl max h

/-- `Math.min(...temps)`; same remark about the unreachable `[]` case. -/
def minQ : List Rat → Rat
  | [] => 0
  | h :: t => t.foldl min h

/-- The aggregated daily entry (interface `DayForecast`, lines 13–20);
`wind_speed` is `Math.round` of the mean, hence integral. -/
structure DayForecast where
  date : Int × Int × Int
  temperature_max : Rat
  temperature_min : Rat
  temperature_avg : Rat
  conditions : String
  wind_speed : Int
deriving DecidableEq

/-- Lines 139–147: transform one date group into a `DayForecast`.
`conditions[Math.floor(length / 2)]` is JS `undefined` on an empty list;
the `getD ""` default is likewise unreachable (non-emptiness invariant). -/
def aggregateGroup (k : Int × Int × Int) (g : DayGroup) : DayForecast :=
  { date := k
    temperature_max := maxQ g.temps
    temperature_min := minQ g.temps
    temperature_avg := toFixed1 (g.temps.sum / (g.temps.length : Rat))
    conditions := g.conditions.getD (g.conditions.length / 2) ""
    wind_speed := jsRound (g.windSpeeds.sum / (g.windSpeeds.length : Rat)) }

/-- The whole forecast aggregation (lines 113–147): drop the samples whose
`getDate()` equals today's (line 115), group by ISO date key, keep the
first 5 groups in encounter order, aggregate each. -/
def processForecast (items : List ForecastItem) (nowMs : Int) : List DayForecast :=
  ((buildGroups (items.filter fun it => itemGetDate it != getDateOfMs nowMs)).take 5).map
    (fun p => aggregateGroup p.1 p.2)

/-- First-occurrence deduplication of a list of keys, preserving encounter
order — the key order a JS `Map` produces. -/
def dedupFirst (ks : List (Int × Int × Int)) : List (Int × Int × Int) :=
  ks.foldl (fun acc k => if k ∈ acc then acc else acc ++ [k]) []

/-- The 8-point compass rose `['N','NE','E','SE','S','SW','W','NW']`
(lines 272 and 306). -/
def cardinals : List String := ["N", "NE", "E", "SE", "S", "SW", "W", "NW"]

/-- The fixed set of mock descriptions (line 273). -/
def mockDescriptions : List String :=
  ["Despejado", "Parcialmente nublado", "Nublado", "Viento"]

/-- Lines 305–309: `directions[Math.round(deg / 45) % 8]`.  JS `%` is the
truncating remainder (`Int.tmod`); for a negative index JS yields
`undefined` — unreachable from the guarded call site (`deg` truthy, and
API degrees lie in `[0, 360]`), so the `getD ""` default is never hit
there. -/
def degToCardinal (deg : Rat) : String :=
  cardinals.getD ((Int.tmod (jsRound (deg / 45)) 8).toNat) ""

/-- The `WeatherData` record (lines 202–210); `null` fields are `none`. -/
structure WeatherData where
  location : String
  temperature : Option Rat
  humidity : Option Rat
  wind_speed : Option Rat
  wind_direction : Option String
  weather_description : Option String
  fetched_at : Int
deriving DecidableEq

/-- JS `x || null` on an optional number: `0` (and absence) are falsy. -/
def jsNumOrNull (x : Option Rat) : Option Rat :=
  match x with
  | some v => if v = 0 then none else some v
  | none => none

/-- JS `x || null` on an optional string: `""` (and absence) are falsy. -/
def jsStrOrNull (x : Option String) : Option String :=
  match x with
  | some s => if s = "" then none else some s
  | none => none

/-- `weatherJson.main` — optional, with optional `temp` / `humidity`. -/
structure OwmMain where
  temp : Option Rat
  humidity : Option Rat
deriving DecidableEq

/-- `weatherJson.wind` — optional, with optional `speed` / `deg`. -/
structure OwmWind where
  speed : Option Rat
  deg : Option Rat
deriving DecidableEq

/-- The upstream current-weather JSON, reduced to the fields the handler
reads; `weather` is the list of `description` strings (an absent array is
the empty list). -/
structure OwmJson where
  main : Option OwmMain
  wind : Option OwmWind
  weather : List String
deriving DecidableEq

/-- Lines 311–320: normalization of the upstream response into
`WeatherData`.  Each numeric field goes through `?.` chains and `|| null`;
`wind_direction` is the ternary `wind?.deg ? degToCardinal(wind.deg) :
null`, so a present-but-zero `deg` is falsy and yields `null`. -/
def normalizeWeather (loc : String) (j : OwmJson) (nowMs : Int) : WeatherData :=
  { location := loc
    temperature := jsNumOrNull (j.main.bind OwmMain.temp)
    humidity := jsNumOrNull (j.main.bind OwmMain.humidity)
    wind_speed := jsNumOrNull (j.wind.bind OwmWind.speed)
    wind_direction :=
      match j.wind.bind OwmWind.deg with
      | some d => if d = 0 then none else some (degToCardinal d)
      | none => none
    weather_description := jsStrOrNull j.weather.head?
    fetched_at := nowMs }

/-- The five `Math.random()` draws of the mock path, in evaluation order
(temperature, humidity, wind speed, direction index, description index). -/
structure MockRand where
  r1 : Rat
  r2 : Rat
  r3 : Rat
  r4 : Rat
  r5 : Rat
deriving DecidableEq

/-- Every draw lies in `[0, 1)`, the contract of `Math.random()`. -/
def randInRange (r : MockRand) : Prop :=
  0 ≤ r.r1 ∧ r.r1 < 1 ∧ 0 ≤ r.r2 ∧ r.r2 < 1 ∧ 0 ≤ r.r3 ∧ r.r3 < 1 ∧
  0 ≤ r.r4 ∧ r.r4 < 1 ∧ 0 ≤ r.r5 ∧ r.r5 < 1

instance (r : MockRand) : Decidable (randInRange r) := by
  unfold randInRange; infer_instance

/-- Lines 267–275: the synthetic `WeatherData` of the mock path. -/
def mkMock (loc : String) (r : MockRand) (nowMs : Int) : WeatherData :=
  { location := loc
    temperature := some (18 + r.r1 * 10)
    humidity := some (50 + r.r2 * 30)
    wind_speed := some (5 + r.r3 * 15)
    wind_direction := some (cardinals.getD (⌊r.r4 * 8⌋).toNat "")
    weather_description := some (mockDescriptions.getD (⌊r.r5 * 4⌋).toNat "")
    fetched_at := nowMs }

/-- The JSON response envelope: `{ data, source, message }` on success,
`{ error, details }` on failure (section 4.5 of the handler's flow). -/
inductive RespBody (α : Type) where
  | success (data : α) (source : String) (message : String)
  | failure (error : String) (details : String)
deriving DecidableEq

/-- Observable outcome of one handler invocation: the HTTP status and
body, together with the effect trace — number of upstream `fetch` calls,
the cache-insert payloads attempted, and whether an insert error was
logged. -/
structure HandlerResult (α : Type) where
  status : Nat
  body : RespBody α
  upstreamCalls : Nat
  cacheWrites : List α
  loggedInsertError : Bool
deriving DecidableEq

/-- One step of the cache-query fold: keep the best (latest) matching row
seen so far, considering one more row. -/
def freshStep {α : Type} (getLoc : α → String) (getTime : α → Int)
    (loc : String) (cutoff : Int) (acc : Option α) (r : α) : Option α :=
  if getLoc r = loc ∧ cutoff ≤ getTime r then
    match acc with
    | none => some r
    | some b => if getTime b < getTime r then some r else some b
  else acc

/-- The cache query (`.eq('location', loc).gte('fetched_at', cutoff)
.order('fetched_at', { ascending: false }).limit(1).maybeSingle()`):
the matching row with the greatest `fetched_at`, if any. -/
def latestFresh {α : Type} (getLoc : α → String) (getTime : α → Int)
    (rows : List α) (loc : String) (cutoff : Int) : Option α :=
  rows.foldl (freshStep getLoc getTime loc cutoff) none

/-- `Response.ok` of the `fetch` API: status in the range 200–299. -/
def respOk (s : Nat) : Bool := 200 ≤ s && s < 300

/-- Collaborator state and inputs of one current-weather invocation:
the request's location, the `weather_cache` rows (each row is the
`WeatherData` shape the handler inserts), whether the cache read errors,
the `OPENWEATHER_API_KEY` secret, what the upstream `fetch` would return,
whether the cache insert fails, the `Math.random()` draws and the clock. -/
structure CurrentEnv where
  location : String
  rows : List WeatherData
  cacheReadError : Bool
  apiKey : Option String
  upstreamStatus : Nat
  upstreamJson : OwmJson
  insertFailure : Bool
  rand : MockRand
  nowMs : Int

/-- The current-weather cache lookup (lines 232–241): 30-minute window. -/
def weatherLookup (env : CurrentEnv) : Option WeatherData :=
  latestFresh WeatherData.location WeatherData.fetched_at env.rows env.location
    (env.nowMs - 30 * 60 * 1000)

/-- The cache-miss continuation of the current-weather handler
(lines 261–342): mock path when no API key, otherwise fetch, normalize,
insert (failure only logged) and respond; a non-ok upstream status throws
into the catch block (lines 344–357). -/
def currentMiss (env : CurrentEnv) : HandlerResult WeatherData :=
  match env.apiKey with
  | none =>
    let d := mkMock env.location env.rand env.nowMs
    ⟨200, .success d "mock"
        "Mock data - Add OPENWEATHER_API_KEY secret for real weather data",
      0, [d], false⟩
  | some _ =>
    if respOk env.upstreamStatus then
      let d := normalizeWeather env.location env.upstreamJson env.nowMs
      ⟨200, .success d "api" "Fresh data from weather service", 1, [d],
        env.insertFailure⟩
    else
      ⟨500, .failure ("Weather API error: " ++ toString env.upstreamStatus)
          "Failed to fetch weather data", 1, [], false⟩

/-- The current-weather handler (lines 212–358).  `if (cachedData &&
!cacheError)` returns the cached row (the whole row is the payload,
`select('*')`); otherwise the miss path runs. -/
def currentHandler (env : CurrentEnv) : HandlerResult WeatherData :=
  match weatherLookup env with
  | some row =>
    if env.cacheReadError then currentMiss env
    else
      ⟨200, .success row "cache" "Data from cache (less than 30 minutes old)",
        0, [], false⟩
  | none => currentMiss env

/-- The `ForecastData` record (lines 22–26). -/
structure ForecastData where
  location : String
  forecast : List DayForecast
  fetched_at : Int
deriving DecidableEq

/-- One row of `forecast_cache`: `location`, `forecast_data`, `fetched_at`. -/
structure ForecastCacheRow where
  location : String
  forecast_data : ForecastData
  fetched_at : Int
deriving DecidableEq

/-- Collaborator state and inputs of one forecast invocation. -/
structure ForecastEnv where
  location : String
  rows : List ForecastCacheRow
  cacheReadError : Bool
  apiKey : Option String
  upstreamStatus : Nat
  upstreamList : List ForecastItem
  insertFailure : Bool
  nowMs : Int

/-- The forecast cache lookup (lines 54–63): 6-hour window. -/
def forecastLookup (env : ForecastEnv) : Option ForecastCacheRow :=
  latestFresh ForecastCacheRow.location ForecastCacheRow.fetched_at env.rows
    env.location (env.nowMs - 6 * 60 * 60 * 1000)

/-- The cache-miss continuation of the forecast handler (lines 83–179):
a missing API key throws (line 87), a non-ok upstream status throws
(line 96), otherwise aggregate, insert (failure only logged) and respond. -/
def forecastMiss (env : ForecastEnv) : HandlerResult ForecastData :=
  match env.apiKey with
  | none =>
    ⟨500, .failure "OPENWEATHER_API_KEY is not set in environment secrets."
        "Failed to fetch weather data", 0, [], false⟩
  | some _ =>
    if respOk env.upstreamStatus then
      let fd : ForecastData :=
        ⟨env.location, processForecast env.upstreamList env.nowMs, env.nowMs⟩
      ⟨200, .success fd "api" "Fresh 5-day forecast from OpenWeatherMap", 1,
        [fd], env.insertFailure⟩
    else
      ⟨500, .failure ("Weather API error: " ++ toString env.upstreamStatus)
          "Failed to fetch weather data", 1, [], false⟩

/-- The forecast handler (lines 33–195): cache hit returns the row's
`forecast_data` column (line 69); otherwise the miss path runs. -/
def forecastHandler (env : ForecastEnv) : HandlerResult ForecastData :=
  match forecastLookup env with
  | some row =>
    if env.cacheReadError then forecastMiss env
    else
      ⟨200, .success row.forecast_data "cache"
          "Data from cache (less than 6 hours old)", 0, [], false⟩
  | none => forecastMiss env

/-! ### Rounding bounds -/

theorem jsRound_le (x : Rat) : (jsRound x : Rat) ≤ x + 1/2 :=
  Int.floor_le _

theorem lt_jsRound (x : Rat) : x - 1/2 < (jsRound x : Rat) := by
  have h := Int.lt_floor_add_one (x + 1/2)
  unfold jsRound
  linarith

theorem toFixed1_le (x : Rat) : toFixed1 x ≤ x + 1/20 := by
  unfold toFixed1
  rw [div_le_iff₀ (by norm_num : (0 : Rat) < 10)]
  have h := jsRound_le (10 * x)
  linarith

theorem le_toFixed1 (x : Rat) : x - 1/20 ≤ toFixed1 x := by
  unfold toFixed1
  rw [le_div_iff₀ (by norm_num : (0 : Rat) < 10)]
  have h := lt_jsRound (10 * x)
  linarith

/-! ### `Math.max` / `Math.min` over non-empty lists -/

theorem foldl_max_init (t : List Rat) (a : Rat) : a ≤ t.foldl max a := by
  induction t generalizing a with
  | nil => simp
  | cons b t ih =>
    rw [List.foldl_cons]
    exact le_trans (le_max_left a b) (ih (max a b))

theorem mem_le_foldl_max (t : List Rat) (a x : Rat) (hx : x ∈ t) :
    x ≤ t.foldl max a := by
  induction t generalizing a with
  | nil => cases hx
  | cons b t ih =>
    rw [List.foldl_cons]
    rcases List.mem_cons.mp hx with h | h
    · subst h
      exact le_trans (le_max_right a x) (foldl_max_init t _)
    · exact ih _ h

theorem foldl_max_mem (t : List Rat) (a : Rat) :
    t.foldl max a = a ∨ t.foldl max a ∈ t := by
  induction t generalizing a with
  | nil => left; rfl
  | cons b t ih =>
    rw [List.foldl_cons]
    rcases ih (max a b) with h | h
    · rcases max_choice a b with hc | hc
      · left; rw [h, hc]
      · right; rw [h, hc]; exact List.mem_cons_self b t
    · right; exact List.mem_cons_of_mem b h

theorem foldl_min_init (t : List Rat) (a : Rat) : t.foldl min a ≤ a := by
  induction t generalizing a with
  | nil => simp
  | cons b t ih =>
    rw [List.foldl_cons]
    exact le_trans (ih (min a b)) (min_le_left a b)

theorem foldl_min_le_mem (t : List Rat) (a x : Rat) (hx : x ∈ t) :
    t.foldl min a ≤ x := by
  induction t generalizing a with
  | nil => cases hx
  | cons b t ih =>
    rw [List.foldl_cons]
    rcases List.mem_cons.mp hx with h | h
    · subst h
      exact le_trans (foldl_min_init t _) (min_le_right a x)
    · exact ih _ h

theorem foldl_min_mem (t : List Rat) (a : Rat) :
    t.foldl min a = a ∨ t.foldl min a ∈ t := by
  induction t generalizing a with
  | nil => left; rfl
  | cons b t ih =>
    rw [List.foldl_cons]
    rcases ih (min a b) with h | h
    · rcases min_choice a b with hc | hc
      · left; rw [h, hc]
      · right; rw [h, hc]; exact List.mem_cons_self b t
    · right; exact List.mem_cons_of_mem b h

theorem le_maxQ (l : List Rat) (x : Rat) (hx : x ∈ l) : x ≤ maxQ l := by
  cases l with
  | nil => cases hx
  | cons h t =>
    rcases List.mem_cons.mp hx with hh | hh
    · subst hh; exact foldl_max_init t x
    · exact mem_le_foldl_max t h x hh

theorem maxQ_mem (l : List Rat) (h : l ≠ []) : maxQ l ∈ l := by
  cases l with
  | nil => exact absurd rfl h
  | cons a t =>
    rcases foldl_max_mem t a with he | he
    · rw [maxQ, he]; exact List.mem_cons_self a t
    · exact List.mem_cons_of_mem a he

theorem minQ_le (l : List Rat) (x : Rat) (hx : x ∈ l) : minQ l ≤ x := by
  cases l with
  | nil => cases hx
  | cons h t =>
    rcases List.mem_cons.mp hx with hh | hh
    · subst hh; exact foldl_min_init t x
    · exact foldl_min_le_mem t h x hh

theorem minQ_mem (l : List Rat) (h : l ≠ []) : minQ l ∈ l := by
  cases l with
  | nil => exact absurd rfl h
  | cons a t =>
    rcases foldl_min_mem t a with he | he
    · rw [minQ, he]; exact List.mem_cons_self a t
    · exact List.mem_cons_of_mem a he

/-! ### Mean bounds -/

theorem sum_le_length_mul (l : List Rat) (M : Rat) (h : ∀ x ∈ l, x ≤ M) :
    l.sum ≤ (l.length : Rat) * M := by
  induction l with
  | nil => simp
  | cons a t ih =>
    have ha : a ≤ M := h a (List.mem_cons_self a t)
    have ht : t.sum ≤ (t.length : Rat) * M :=
      ih (fun x hx => h x (List.mem_cons_of_mem a hx))
    simp only [List.sum_cons, List.length_cons]
    push_cast
    nlinarith

theorem length_mul_le_sum (l : List Rat) (m : Rat) (h : ∀ x ∈ l, m ≤ x) :
    (l.length : Rat) * m ≤ l.sum := by
  induction l with
  | nil => simp
  | cons a t ih =>
    have ha : m ≤ a := h a (List.mem_cons_self a t)
    have ht : (t.length : Rat) * m ≤ t.sum :=
      ih (fun x hx => h x (List.mem_cons_of_mem a hx))
    simp only [List.sum_cons, List.length_cons]
    push_cast
    nlinarith

theorem length_pos_rat (l : List Rat) (h : l ≠ []) : (0 : Rat) < l.length := by
  have : 0 < l.length := List.length_pos.mpr h
  exact_mod_cast this

theorem mean_le_maxQ (l : List Rat) (h : l ≠ []) :
    l.sum / (l.length : Rat) ≤ maxQ l := by
  rw [div_le_iff₀ (length_pos_rat l h)]
  have := sum_le_length_mul l (maxQ l) (fun x hx => le_maxQ l x hx)
  linarith [this]

theorem minQ_le_mean (l : List Rat) (h : l ≠ []) :
    minQ l ≤ l.sum / (l.length : Rat) := by
  rw [le_div_iff₀ (length_pos_rat l h)]
  have := length_mul_le_sum l (minQ l) (fun x hx => minQ_le l x hx)
  linarith [this]

/-- C4: in the current-weather handler's normalization, degree inputs of
0, 90, 180 and 270 map to "N", "E", "S" and "W" respectively, and 45 maps
to "NE" (`degToCardinal`, lines 305–309). -/
theorem C4_cardinal_mapping :
    degToCardinal 0 = "N" ∧ degToCardinal 90 = "E" ∧ degToCardinal 180 = "S" ∧
    degToCardinal 270 = "W" ∧ degToCardinal 45 = "NE" := by
  refine ⟨?_, ?_, ?_, ?_, ?_⟩ <;> simp only [degToCardinal, jsRound, cardinals] <;>
    norm_num <;> rfl

/-- C8: in the forecast aggregation, an upstream wind speed of 10 m/s is
converted, before averaging, to exactly 36.0 km/h (line 120). -/
theorem C8_wind_conversion : windSpeedKmh 10 = 36 := by
  unfold windSpeedKmh toFixed1 jsRound
  norm_num

/-- C2 as stated is false: for the singleton group with temperature 10.04,
the average is rounded to 10.0, strictly below the exact minimum 10.04, so
`temperature_max ≥ temperature_avg ≥ temperature_min` fails. -/
theorem C2_counterexample :
    ¬ ((aggregateGroup (2025, 11, 1)
          ⟨[251/25], ["nubes"], [18/5]⟩).temperature_avg ≥
        (aggregateGroup (2025, 11, 1)
          ⟨[251/25], ["nubes"], [18/5]⟩).temperature_min) := by
  simp only [aggregateGroup, minQ, toFixed1, jsRound, List.sum_cons, List.sum_nil,
    List.length_cons, List.length_nil, List.foldl_nil]
  norm_num

/-- C2 (amended): for every non-empty date group, `temperature_max` and
`temperature_min` are the exact maximum and minimum of the group's
temperatures (both attained), and `temperature_avg` — the mean rounded to
1 decimal place — lies within the rounding tolerance of that range:
`temperature_min − 0.05 ≤ temperature_avg ≤ temperature_max + 0.05`. -/
theorem C2_amended_bounds (k : Int × Int × Int) (g : DayGroup)
    (h : g.temps ≠ []) :
    (∀ x ∈ g.temps,
      (aggregateGroup k g).temperature_min ≤ x ∧
      x ≤ (aggregateGroup k g).temperature_max) ∧
    (aggregateGroup k g).temperature_max ∈ g.temps ∧
    (aggregateGroup k g).temperature_min ∈ g.temps ∧
    (aggregateGroup k g).temperature_min - 1/20 ≤
      (aggregateGroup k g).temperature_avg ∧
    (aggregateGroup k g).temperature_avg ≤
      (aggregateGroup k g).temperature_max + 1/20 := by
  simp only [aggregateGroup]
  refine ⟨fun x hx => ⟨minQ_le g.temps x hx, le_maxQ g.temps x hx⟩,
    maxQ_mem g.temps h, minQ_mem g.temps h, ?_, ?_⟩
  · have h1 := minQ_le_mean g.temps h
    have h2 := le_toFixed1 (g.temps.sum / (g.temps.length : Rat))
    linarith
  · have h1 := mean_le_maxQ g.temps h
    have h2 := toFixed1_le (g.temps.sum / (g.temps.length : Rat))
    linarith

/-- Witness for C2 (amended) at the concrete group `{temps := [1, 3]}`. -/
theorem C2_amended_witness :
    (([1, 3] : List Rat) ≠ []) ∧
    (aggregateGroup (2025, 11, 2)
        ⟨[1, 3], ["a"], [2]⟩).temperature_min - 1/20 ≤
      (aggregateGroup (2025, 11, 2) ⟨[1, 3], ["a"], [2]⟩).temperature_avg :=
  ⟨by decide,
    (C2_amended_bounds (2025, 11, 2) ⟨[1, 3], ["a"], [2]⟩ (by decide)).2.2.2.1⟩

/-! ### Keys of the grouping map -/

theorem pushItem_map_fst (m : List ((Int × Int × Int) × DayGroup))
    (k : Int × Int × Int) (it : ForecastItem) :
    (pushItem m k it).map Prod.fst =
      if k ∈ m.map Prod.fst then m.map Prod.fst else m.map Prod.fst ++ [k] := by
  by_cases h : k ∈ m.map Prod.fst
  · rw [pushItem, if_pos h, if_pos h, List.map_map]
    apply List.map_congr_left
    intro a _
    by_cases hp : a.1 = k <;> simp [hp]
  · rw [pushItem, if_neg h, if_neg h, List.map_append]
    simp

theorem foldl_push_map_fst (l : List ForecastItem) :
    ∀ m : List ((Int × Int × Int) × DayGroup),
      (l.foldl (fun m it => pushItem m (itemDateKey it) it) m).map Prod.fst =
        (l.map itemDateKey).foldl
          (fun acc k => if k ∈ acc then acc else acc ++ [k]) (m.map Prod.fst) := by
  induction l with
  | nil => intro m; rfl
  | cons it t ih =>
    intro m
    rw [List.foldl_cons, List.map_cons, List.foldl_cons, ih, pushItem_map_fst]

theorem buildGroups_map_fst (l : List ForecastItem) :
    (buildGroups l).map Prod.fst = dedupFirst (l.map itemDateKey) := by
  rw [buildGroups, dedupFirst, foldl_push_map_fst]
  rfl

theorem mem_dedup_foldl (ks : List (Int × Int × Int)) :
    ∀ (acc : List (Int × Int × Int)) (x : Int × Int × Int),
      x ∈ ks.foldl (fun acc k => if k ∈ acc then acc else acc ++ [k]) acc →
        x ∈ acc ∨ x ∈ ks := by
  induction ks with
  | nil => intro acc x h; exact Or.inl h
  | cons k t ih =>
    intro acc x h
    rw [List.foldl_cons] at h
    rcases ih _ x h with h1 | h1
    · by_cases hk : k ∈ acc
      · rw [if_pos hk] at h1; exact Or.inl h1
      · rw [if_neg hk] at h1
        rcases List.mem_append.mp h1 with h2 | h2
        · exact Or.inl h2
        · right; rw [List.mem_singleton.mp h2]; exact List.mem_cons_self k t
    · exact Or.inr (List.mem_cons_of_mem k h1)

theorem mem_dedupFirst (ks : List (Int × Int × Int)) (x : Int × Int × Int)
    (h : x ∈ dedupFirst ks) : x ∈ ks := by
  rcases mem_dedup_foldl ks [] x h with h1 | h1
  · cases h1
  · exact h1

/-! ### Non-emptiness invariant of the grouping map -/

/-- Every group of the map holds at least one sample in each list. -/
def goodGroup (p : (Int × Int × Int) × DayGroup) : Prop :=
  p.2.temps ≠ [] ∧ p.2.conditions ≠ [] ∧ p.2.windSpeeds ≠ []

theorem pushItem_good (m : List ((Int × Int × Int) × DayGroup))
    (k : Int × Int × Int) (it : ForecastItem)
    (hm : ∀ p ∈ m, goodGroup p) : ∀ p ∈ pushItem m k it, goodGroup p := by
  intro p hp
  rw [pushItem] at hp
  split at hp
  · rcases List.mem_map.mp hp with ⟨q, hq, hfq⟩
    rw [← hfq]
    by_cases hqk : q.1 = k
    · simp only [if_pos hqk, goodGroup]
      refine ⟨?_, ?_, ?_⟩ <;> simp
    · simp only [if_neg hqk]
      exact hm q hq
  · rcases List.mem_append.mp hp with h1 | h1
    · exact hm p h1
    · rw [List.mem_singleton.mp h1]
      refine ⟨?_, ?_, ?_⟩ <;> simp

theorem foldl_push_good (l : List ForecastItem) :
    ∀ m : List ((Int × Int × Int) × DayGroup), (∀ p ∈ m, goodGroup p) →
      ∀ p ∈ l.foldl (fun m it => pushItem m (itemDateKey it) it) m, goodGroup p := by
  induction l with
  | nil => intro m hm; exact hm
  | cons it t ih =>
    intro m hm
    rw [List.foldl_cons]
    exact ih _ (pushItem_good m _ it hm)

/-- C9: every date group present in the aggregation map at transformation
time holds at least one temperature, one condition and one wind-speed
sample, and the middle-index condition access `⌊n / 2⌋` is in bounds. -/
theorem C9_group_invariant (l : List ForecastItem) (k : Int × Int × Int)
    (g : DayGroup) (h : (k, g) ∈ buildGroups l) :
    g.temps ≠ [] ∧ g.conditions ≠ [] ∧ g.windSpeeds ≠ [] ∧
    g.conditions.length / 2 < g.conditions.length := by
  have hg := foldl_push_good l [] (by intro p hp; cases hp) (k, g) h
  exact ⟨hg.1, hg.2.1, hg.2.2,
    Nat.div_lt_self (List.length_pos.mpr hg.2.1) one_lt_two⟩

/-- Witness for C9 at a one-sample series. -/
theorem C9_witness :
    (⟨[20], ["x"], [windSpeedKmh 5]⟩ : DayGroup).temps ≠ [] ∧
    (⟨[20], ["x"], [windSpeedKmh 5]⟩ : DayGroup).conditions.length / 2 <
      (⟨[20], ["x"], [windSpeedKmh 5]⟩ : DayGroup).conditions.length := by
  have h := C9_group_invariant [⟨86400, 20, "x", 5⟩]
      (itemDateKey ⟨86400, 20, "x", 5⟩) ⟨[20], ["x"], [windSpeedKmh 5]⟩
      (by
        rw [show buildGroups [⟨86400, 20, "x", 5⟩] =
            [(itemDateKey ⟨86400, 20, "x", 5⟩,
              ⟨[20], ["x"], [windSpeedKmh 5]⟩)] from rfl]
        exact List.mem_singleton_self _)
  exact ⟨h.1, h.2.2.2⟩

/-- C1: for every upstream series and every current time, the aggregated
output has at most 5 entries, no entry dated with the current calendar
date, and its dates are exactly the first-appearance-ordered distinct
dates of the (today-filtered) upstream series, capped at 5. -/
theorem C1_forecast_shape (items : List ForecastItem) (nowMs : Int) :
    (processForecast items nowMs).length ≤ 5 ∧
    (∀ e ∈ processForecast items nowMs, e.date ≠ dateKeyOfMs nowMs) ∧
    (processForecast items nowMs).map DayForecast.date =
      (dedupFirst (((items.filter
        (fun it => itemGetDate it != getDateOfMs nowMs)).map itemDateKey))).take 5 := by
  have hmap : (processForecast items nowMs).map DayForecast.date =
      (dedupFirst (((items.filter
        (fun it => itemGetDate it != getDateOfMs nowMs)).map itemDateKey))).take 5 := by
    rw [processForecast, List.map_map,
      show DayForecast.date ∘
          (fun p : (Int × Int × Int) × DayGroup => aggregateGroup p.1 p.2) =
        Prod.fst from funext fun p => rfl,
      List.map_take, buildGroups_map_fst]
  refine ⟨?_, ?_, hmap⟩
  · rw [processForecast, List.length_map, List.length_take]
    exact min_le_left 5 _
  · intro e he
    have hed : e.date ∈ (dedupFirst (((items.filter
        (fun it => itemGetDate it != getDateOfMs nowMs)).map itemDateKey))).take 5 := by
      rw [← hmap]
      exact List.mem_map_of_mem DayForecast.date he
    have hed3 := mem_dedupFirst _ _ (List.mem_of_mem_take hed)
    rcases List.mem_map.mp hed3 with ⟨it, hit, hkey⟩
    have hfil := List.mem_filter.mp hit
    intro hcontra
    have hday : itemGetDate it = getDateOfMs nowMs :=
      congrArg (fun d : Int × Int × Int => d.2.2) (hkey.trans hcontra)
    have hb : itemGetDate it ≠ getDateOfMs nowMs := by
      have := hfil.2
      simpa [bne_iff_ne] using this
    exact hb hday

/-- Witness for C1 at a one-sample series one day after the epoch. -/
theorem C1_witness :
    (processForecast [⟨90000, 20, "x", 5⟩] 0).length ≤ 5 ∧
    (aggregateGroup (1970, 1, 2) ⟨[20], ["x"], [windSpeedKmh 5]⟩).date ≠
      dateKeyOfMs 0 := by
  have h := C1_forecast_shape [⟨90000, 20, "x", 5⟩] 0
  refine ⟨h.1, h.2.1 _ ?_⟩
  rw [show processForecast [⟨90000, 20, "x", 5⟩] 0 =
      [aggregateGroup (1970, 1, 2) ⟨[20], ["x"], [windSpeedKmh 5]⟩] from rfl]
  exact List.mem_singleton_self _

/-! ### Cache-lookup lemmas -/

theorem freshStep_pres {α : Type} (getLoc : α → String) (getTime : α → Int)
    (loc : String) (cutoff : Int) (acc : Option α) (r : α)
    (hacc : ∀ b, acc = some b → getLoc b = loc ∧ cutoff ≤ getTime b) :
    ∀ b, freshStep getLoc getTime loc cutoff acc r = some b →
      getLoc b = loc ∧ cutoff ≤ getTime b := by
  intro b hb
  cases acc with
  | none =>
    rw [show freshStep getLoc getTime loc cutoff none r =
        (if getLoc r = loc ∧ cutoff ≤ getTime r then some r else none)
      from rfl] at hb
    by_cases hg : getLoc r = loc ∧ cutoff ≤ getTime r
    · rw [if_pos hg] at hb
      injection hb with hrb
      rw [← hrb]
      exact hg
    · rw [if_neg hg] at hb
      cases hb
  | some b0 =>
    rw [show freshStep getLoc getTime loc cutoff (some b0) r =
        (if getLoc r = loc ∧ cutoff ≤ getTime r then
          (if getTime b0 < getTime r then some r else some b0) else some b0)
      from rfl] at hb
    by_cases hg : getLoc r = loc ∧ cutoff ≤ getTime r
    · rw [if_pos hg] at hb
      by_cases ht : getTime b0 < getTime r
      · rw [if_pos ht] at hb
        injection hb with hrb
        rw [← hrb]
        exact hg
      · rw [if_neg ht] at hb
        injection hb with hrb
        rw [← hrb]
        exact hacc b0 rfl
    · rw [if_neg hg] at hb
      exact hacc b hb

theorem freshStep_some_of_acc {α : Type} (getLoc : α → String) (getTime : α → Int)
    (loc : String) (cutoff : Int) (b : α) (r : α) :
    ∃ c, freshStep getLoc getTime loc cutoff (some b) r = some c := by
  rw [show freshStep getLoc getTime loc cutoff (some b) r =
      (if getLoc r = loc ∧ cutoff ≤ getTime r then
        (if getTime b < getTime r then some r else some b) else some b)
    from rfl]
  by_cases hg : getLoc r = loc ∧ cutoff ≤ getTime r
  · rw [if_pos hg]
    by_cases ht : getTime b < getTime r
    · rw [if_pos ht]; exact ⟨r, rfl⟩
    · rw [if_neg ht]; exact ⟨b, rfl⟩
  · rw [if_neg hg]; exact ⟨b, rfl⟩

theorem freshStep_some_of_good {α : Type} (getLoc : α → String) (getTime : α → Int)
    (loc : String) (cutoff : Int) (acc : Option α) (r : α)
    (hg : getLoc r = loc ∧ cutoff ≤ getTime r) :
    ∃ c, freshStep getLoc getTime loc cutoff acc r = some c := by
  cases acc with
  | none =>
    exact ⟨r, by
      rw [show freshStep getLoc getTime loc cutoff none r =
          (if getLoc r = loc ∧ cutoff ≤ getTime r then some r else none)
        from rfl, if_pos hg]⟩
  | some b => exact freshStep_some_of_acc getLoc getTime loc cutoff b r

theorem foldl_freshStep_pres {α : Type} (getLoc : α → String) (getTime : α → Int)
    (loc : String) (cutoff : Int) (rows : List α) :
    ∀ acc, (∀ b, acc = some b → getLoc b = loc ∧ cutoff ≤ getTime b) →
      ∀ b, rows.foldl (freshStep getLoc getTime loc cutoff) acc = some b →
        getLoc b = loc ∧ cutoff ≤ getTime b := by
  induction rows with
  | nil => intro acc hacc b hb; exact hacc b hb
  | cons r t ih =>
    intro acc hacc b hb
    rw [List.foldl_cons] at hb
    exact ih _ (freshStep_pres getLoc getTime loc cutoff acc r hacc) b hb

theorem foldl_freshStep_some {α : Type} (getLoc : α → String) (getTime : α → Int)
    (loc : String) (cutoff : Int) (rows : List α) :
    ∀ (acc : Option α) (b : α), acc = some b →
      ∃ c, rows.foldl (freshStep getLoc getTime loc cutoff) acc = some c := by
  induction rows with
  | nil =>
    intro acc b h
    exact ⟨b, by rw [List.foldl_nil, h]⟩
  | cons r t ih =>
    intro acc b h
    rw [List.foldl_cons]
    obtain ⟨c, hc⟩ := h ▸ freshStep_some_of_acc getLoc getTime loc cutoff b r
    exact ih _ c hc

theorem foldl_freshStep_progress {α : Type} (getLoc : α → String) (getTime : α → Int)
    (loc : String) (cutoff : Int) (rows : List α) :
    ∀ acc, (∃ r ∈ rows, getLoc r = loc ∧ cutoff ≤ getTime r) →
      ∃ c, rows.foldl (freshStep getLoc getTime loc cutoff) acc = some c := by
  induction rows with
  | nil =>
    intro acc h
    obtain ⟨r, hr, _⟩ := h
    cases hr
  | cons r t ih =>
    intro acc h
    obtain ⟨w, hw, hgw⟩ := h
    rw [List.foldl_cons]
    rcases List.mem_cons.mp hw with h1 | h1
    · obtain ⟨c, hc⟩ :=
        freshStep_some_of_good getLoc getTime loc cutoff acc r (h1 ▸ hgw)
      exact foldl_freshStep_some getLoc getTime loc cutoff t _ c hc
    · exact ih _ ⟨w, h1, hgw⟩

theorem foldl_freshStep_none {α : Type} (getLoc : α → String) (getTime : α → Int)
    (loc : String) (cutoff : Int) (rows : List α)
    (h : ∀ r ∈ rows, ¬(getLoc r = loc ∧ cutoff ≤ getTime r)) :
    rows.foldl (freshStep getLoc getTime loc cutoff) none = none := by
  induction rows with
  | nil => rfl
  | cons r t ih =>
    rw [List.foldl_cons,
      show freshStep getLoc getTime loc cutoff none r = none from by
        rw [freshStep.eq_def, if_neg (h r (List.mem_cons_self r t))]]
    exact ih (fun x hx => h x (List.mem_cons_of_mem r hx))

/-- A fresh matching row exists → the query returns a fresh matching row. -/
theorem latestFresh_fresh {α : Type} (getLoc : α → String) (getTime : α → Int)
    (rows : List α) (loc : String) (cutoff : Int)
    (h : ∃ r ∈ rows, getLoc r = loc ∧ cutoff ≤ getTime r) :
    ∃ r, latestFresh getLoc getTime rows loc cutoff = some r ∧
      getLoc r = loc ∧ cutoff ≤ getTime r := by
  obtain ⟨c, hc⟩ := foldl_freshStep_progress getLoc getTime loc cutoff rows none h
  exact ⟨c, hc, foldl_freshStep_pres getLoc getTime loc cutoff rows none
    (by intro b hb; cases hb) c hc⟩

/-- No fresh matching row → the query returns nothing. -/
theorem latestFresh_none {α : Type} (getLoc : α → String) (getTime : α → Int)
    (rows : List α) (loc : String) (cutoff : Int)
    (h : ∀ r ∈ rows, ¬(getLoc r = loc ∧ cutoff ≤ getTime r)) :
    latestFresh getLoc getTime rows loc cutoff = none :=
  foldl_freshStep_none getLoc getTime loc cutoff rows h

/-- C3: with a fresh cache row for the location and an error-free cache
read, each handler answers 200 with a fresh row's payload and
`source="cache"`, performing no upstream call and no cache write
(windows: 30 minutes for current weather, 6 hours for forecast). -/
theorem C3_cache_hit (cenv : CurrentEnv) (fenv : ForecastEnv)
    (hc : ∃ r ∈ cenv.rows, r.location = cenv.location ∧
      cenv.nowMs - 30 * 60 * 1000 ≤ r.fetched_at)
    (hce : cenv.cacheReadError = false)
    (hf : ∃ r ∈ fenv.rows, r.location = fenv.location ∧
      fenv.nowMs - 6 * 60 * 60 * 1000 ≤ r.fetched_at)
    (hfe : fenv.cacheReadError = false) :
    (∃ r : WeatherData, r.location = cenv.location ∧
      cenv.nowMs - 30 * 60 * 1000 ≤ r.fetched_at ∧
      currentHandler cenv = ⟨200, .success r "cache"
        "Data from cache (less than 30 minutes old)", 0, [], false⟩) ∧
    (∃ r : ForecastCacheRow, r.location = fenv.location ∧
      fenv.nowMs - 6 * 60 * 60 * 1000 ≤ r.fetched_at ∧
      forecastHandler fenv = ⟨200, .success r.forecast_data "cache"
        "Data from cache (less than 6 hours old)", 0, [], false⟩) := by
  constructor
  · obtain ⟨r, heq, hloc, htime⟩ :=
      latestFresh_fresh WeatherData.location WeatherData.fetched_at cenv.rows
        cenv.location (cenv.nowMs - 30 * 60 * 1000) hc
    refine ⟨r, hloc, htime, ?_⟩
    have heq' : weatherLookup cenv = some r := heq
    rw [currentHandler, heq']
    simp [hce]
  · obtain ⟨r, heq, hloc, htime⟩ :=
      latestFresh_fresh ForecastCacheRow.location ForecastCacheRow.fetched_at
        fenv.rows fenv.location (fenv.nowMs - 6 * 60 * 60 * 1000) hf
    refine ⟨r, hloc, htime, ?_⟩
    have heq' : forecastLookup fenv = some r := heq
    rw [forecastHandler, heq']
    simp [hfe]

theorem getD_mem_of_lt {β : Type} :
    ∀ (l : List β) (i : Nat), i < l.length → ∀ d : β, l.getD i d ∈ l := by
  intro l
  induction l with
  | nil => intro i h d; simp at h
  | cons a t ih =>
    intro i h d
    cases i with
    | zero => exact List.mem_cons_self a t
    | succ n => exact List.mem_cons_of_mem a (ih n (by simpa using h) d)

/-- C5: with no fresh cache row and no API key configured, the
current-weather handler answers 200 with `source="mock"`, the synthetic
payload stays in the documented ranges (temperature 18–28, humidity
50–80, wind speed 5–20, one of the 8 cardinal points, one of the fixed
descriptions), and that payload is written to the cache. -/
theorem C5_mock_path (cenv : CurrentEnv)
    (hmiss : ∀ r ∈ cenv.rows, ¬(r.location = cenv.location ∧
      cenv.nowMs - 30 * 60 * 1000 ≤ r.fetched_at))
    (hkey : cenv.apiKey = none)
    (hr : randInRange cenv.rand) :
    currentHandler cenv = ⟨200,
      .success (mkMock cenv.location cenv.rand cenv.nowMs) "mock"
        "Mock data - Add OPENWEATHER_API_KEY secret for real weather data",
      0, [mkMock cenv.location cenv.rand cenv.nowMs], false⟩ ∧
    (∃ t, (mkMock cenv.location cenv.rand cenv.nowMs).temperature = some t ∧
      18 ≤ t ∧ t ≤ 28) ∧
    (∃ h, (mkMock cenv.location cenv.rand cenv.nowMs).humidity = some h ∧
      50 ≤ h ∧ h ≤ 80) ∧
    (∃ w, (mkMock cenv.location cenv.rand cenv.nowMs).wind_speed = some w ∧
      5 ≤ w ∧ w ≤ 20) ∧
    (∃ d, (mkMock cenv.location cenv.rand cenv.nowMs).wind_direction = some d ∧
      d ∈ cardinals) ∧
    (∃ s, (mkMock cenv.location cenv.rand cenv.nowMs).weather_description =
      some s ∧ s ∈ mockDescriptions) := by
  obtain ⟨h1, h2, h3, h4, h5, h6, h7, h8, h9, h10⟩ := hr
  have hnone : weatherLookup cenv = none :=
    latestFresh_none WeatherData.location WeatherData.fetched_at cenv.rows
      cenv.location (cenv.nowMs - 30 * 60 * 1000) hmiss
  refine ⟨?_, ?_, ?_, ?_, ?_, ?_⟩
  · rw [currentHandler, hnone, currentMiss, hkey]
  · exact ⟨18 + cenv.rand.r1 * 10, rfl, by nlinarith, by nlinarith⟩
  · exact ⟨50 + cenv.rand.r2 * 30, rfl, by nlinarith, by nlinarith⟩
  · exact ⟨5 + cenv.rand.r3 * 15, rfl, by nlinarith, by nlinarith⟩
  · refine ⟨cardinals.getD (⌊cenv.rand.r4 * 8⌋).toNat "", rfl, ?_⟩
    have hnn : 0 ≤ ⌊cenv.rand.r4 * 8⌋ := Int.floor_nonneg.mpr (by nlinarith)
    have hlt : ⌊cenv.rand.r4 * 8⌋ < 8 := by
      apply Int.floor_lt.mpr
      push_cast
      nlinarith
    exact getD_mem_of_lt cardinals _ (by simp [cardinals]; omega) ""
  · refine ⟨mockDescriptions.getD (⌊cenv.rand.r5 * 4⌋).toNat "", rfl, ?_⟩
    have hnn : 0 ≤ ⌊cenv.rand.r5 * 4⌋ := Int.floor_nonneg.mpr (by nlinarith)
    have hlt : ⌊cenv.rand.r5 * 4⌋ < 4 := by
      apply Int.floor_lt.mpr
      push_cast
      nlinarith
    exact getD_mem_of_lt mockDescriptions _ (by simp [mockDescriptions]; omega) ""

/-- C6: with no fresh cache row, a configured key, and a non-success
upstream HTTP status, each handler answers 500 with the error string
`"Weather API error: {status}"` and the fixed details string. -/
theorem C6_upstream_status (cenv : CurrentEnv) (fenv : ForecastEnv)
    (hcm : ∀ r ∈ cenv.rows, ¬(r.location = cenv.location ∧
      cenv.nowMs - 30 * 60 * 1000 ≤ r.fetched_at))
    (hck : ∃ k, cenv.apiKey = some k)
    (hcs : respOk cenv.upstreamStatus = false)
    (hfm : ∀ r ∈ fenv.rows, ¬(r.location = fenv.location ∧
      fenv.nowMs - 6 * 60 * 60 * 1000 ≤ r.fetched_at))
    (hfk : ∃ k, fenv.apiKey = some k)
    (hfs : respOk fenv.upstreamStatus = false) :
    currentHandler cenv = ⟨500,
      .failure ("Weather API error: " ++ toString cenv.upstreamStatus)
        "Failed to fetch weather data", 1, [], false⟩ ∧
    forecastHandler fenv = ⟨500,
      .failure ("Weather API error: " ++ toString fenv.upstreamStatus)
        "Failed to fetch weather data", 1, [], false⟩ := by
  constructor
  · have hnone : weatherLookup cenv = none :=
      latestFresh_none WeatherData.location WeatherData.fetched_at cenv.rows
        cenv.location (cenv.nowMs - 30 * 60 * 1000) hcm
    obtain ⟨k, hk⟩ := hck
    rw [currentHandler, hnone, currentMiss, hk]
    simp [hcs]
  · have hnone : forecastLookup fenv = none :=
      latestFresh_none ForecastCacheRow.location ForecastCacheRow.fetched_at
        fenv.rows fenv.location (fenv.nowMs - 6 * 60 * 60 * 1000) hfm
    obtain ⟨k, hk⟩ := hfk
    rw [forecastHandler, hnone, forecastMiss, hk]
    simp [hfs]

/-- C7: with no fresh cache row, a configured key, and a successful
upstream fetch, each handler answers 200 with the freshly fetched payload
and `source="api"`, and a failing cache insert leaves the response (status
and body) unchanged. -/
theorem C7_insert_failure_ignored (cenv : CurrentEnv) (fenv : ForecastEnv)
    (hcm : ∀ r ∈ cenv.rows, ¬(r.location = cenv.location ∧
      cenv.nowMs - 30 * 60 * 1000 ≤ r.fetched_at))
    (hck : ∃ k, cenv.apiKey = some k)
    (hcs : respOk cenv.upstreamStatus = true)
    (hfm : ∀ r ∈ fenv.rows, ¬(r.location = fenv.location ∧
      fenv.nowMs - 6 * 60 * 60 * 1000 ≤ r.fetched_at))
    (hfk : ∃ k, fenv.apiKey = some k)
    (hfs : respOk fenv.upstreamStatus = true) :
    ((currentHandler { cenv with insertFailure := true }).status = 200 ∧
      (currentHandler { cenv with insertFailure := true }).body =
        RespBody.success
          (normalizeWeather cenv.location cenv.upstreamJson cenv.nowMs)
          "api" "Fresh data from weather service" ∧
      (currentHandler { cenv with insertFailure := true }).body =
        (currentHandler { cenv with insertFailure := false }).body ∧
      (currentHandler { cenv with insertFailure := true }).status =
        (currentHandler { cenv with insertFailure := false }).status) ∧
    ((forecastHandler { fenv with insertFailure := true }).status = 200 ∧
      (forecastHandler { fenv with insertFailure := true }).body =
        RespBody.success
          (⟨fenv.location, processForecast fenv.upstreamList fenv.nowMs,
            fenv.nowMs⟩ : ForecastData)
          "api" "Fresh 5-day forecast from OpenWeatherMap" ∧
      (forecastHandler { fenv with insertFailure := true }).body =
        (forecastHandler { fenv with insertFailure := false }).body ∧
      (forecastHandler { fenv with insertFailure := true }).status =
        (forecastHandler { fenv with insertFailure := false }).status) := by
  obtain ⟨k, hk⟩ := hck
  obtain ⟨k2, hk2⟩ := hfk
  have keyC : ∀ b : Bool, currentHandler { cenv with insertFailure := b } =
      ⟨200, .success (normalizeWeather cenv.location cenv.upstreamJson cenv.nowMs)
        "api" "Fresh data from weather service", 1,
        [normalizeWeather cenv.location cenv.upstreamJson cenv.nowMs], b⟩ := by
    intro b
    have hnone : weatherLookup { cenv with insertFailure := b } = none :=
      latestFresh_none WeatherData.location WeatherData.fetched_at cenv.rows
        cenv.location (cenv.nowMs - 30 * 60 * 1000) hcm
    have hk' : ({ cenv with insertFailure := b } : CurrentEnv).apiKey = some k := hk
    rw [currentHandler, hnone, currentMiss, hk']
    simp [hcs]
  have keyF : ∀ b : Bool, forecastHandler { fenv with insertFailure := b } =
      ⟨200, .success (⟨fenv.location, processForecast fenv.upstreamList fenv.nowMs,
        fenv.nowMs⟩ : ForecastData)
        "api" "Fresh 5-day forecast from OpenWeatherMap", 1,
        [⟨fenv.location, processForecast fenv.upstreamList fenv.nowMs,
          fenv.nowMs⟩], b⟩ := by
    intro b
    have hnone : forecastLookup { fenv with insertFailure := b } = none :=
      latestFresh_none ForecastCacheRow.location ForecastCacheRow.fetched_at
        fenv.rows fenv.location (fenv.nowMs - 6 * 60 * 60 * 1000) hfm
    have hk2' : ({ fenv with insertFailure := b } : ForecastEnv).apiKey = some k2 := hk2
    rw [forecastHandler, hnone, forecastMiss, hk2']
    simp [hfs]
  refine ⟨⟨?_, ?_, ?_, ?_⟩, ⟨?_, ?_, ?_, ?_⟩⟩
  · rw [keyC true]
  · rw [keyC true]
  · rw [keyC true, keyC false]
  · rw [keyC true, keyC false]
  · rw [keyF true]
  · rw [keyF true]
  · rw [keyF true, keyF false]
  · rw [keyF true, keyF false]

/-- C10: in the normalization of a real upstream response, a numeric field
that is present but equal to 0 (temperature, humidity, wind speed, or wind
direction degrees) is recorded as `null`, indistinguishable from the field
being absent (`|| null` on falsy `0`, and the truthiness ternary on `deg`). -/
theorem C10_zero_is_null (loc : String) (nowMs : Int) (tmp hum spd dg : Option Rat)
    (ws : List String) :
    (normalizeWeather loc ⟨some ⟨some 0, hum⟩, some ⟨spd, dg⟩, ws⟩ nowMs =
      normalizeWeather loc ⟨some ⟨none, hum⟩, some ⟨spd, dg⟩, ws⟩ nowMs) ∧
    (normalizeWeather loc ⟨some ⟨some 0, hum⟩, some ⟨spd, dg⟩, ws⟩ nowMs).temperature
      = none ∧
    (normalizeWeather loc ⟨some ⟨tmp, some 0⟩, some ⟨spd, dg⟩, ws⟩ nowMs =
      normalizeWeather loc ⟨some ⟨tmp, none⟩, some ⟨spd, dg⟩, ws⟩ nowMs) ∧
    (normalizeWeather loc ⟨some ⟨tmp, some 0⟩, some ⟨spd, dg⟩, ws⟩ nowMs).humidity
      = none ∧
    (normalizeWeather loc ⟨some ⟨tmp, hum⟩, some ⟨some 0, dg⟩, ws⟩ nowMs =
      normalizeWeather loc ⟨some ⟨tmp, hum⟩, some ⟨none, dg⟩, ws⟩ nowMs) ∧
    (normalizeWeather loc ⟨some ⟨tmp, hum⟩, some ⟨some 0, dg⟩, ws⟩ nowMs).wind_speed
      = none ∧
    (normalizeWeather loc ⟨some ⟨tmp, hum⟩, some ⟨spd, some 0⟩, ws⟩ nowMs =
      normalizeWeather loc ⟨some ⟨tmp, hum⟩, some ⟨spd, none⟩, ws⟩ nowMs) ∧
    (normalizeWeather loc ⟨some ⟨tmp, hum⟩, some ⟨spd, some 0⟩, ws⟩ nowMs).wind_direction
      = none := by
  refine ⟨?_, ?_, ?_, ?_, ?_, ?_, ?_, ?_⟩ <;>
    simp [normalizeWeather, jsNumOrNull]

/-- Witness for C10 at a concrete upstream payload with temperature 0. -/
theorem C10_witness :
    (normalizeWeather "x"
      ⟨some ⟨some 0, some 5⟩, some ⟨some 3, some 90⟩, ["a"]⟩ 0).temperature =
      none :=
  (C10_zero_is_null "x" 0 (some 1) (some 5) (some 3) (some 90) ["a"]).2.1

/-- A cached current-weather row used by the C3 witness. -/
def w0 : WeatherData := ⟨"Santiago", some 20, some 60, some 10, some "N", some "d", 0⟩

/-- A current-weather environment with a fresh cached row. -/
def cenv0 : CurrentEnv :=
  ⟨"Santiago", [w0], false, none, 200, ⟨none, none, []⟩, false, ⟨0, 0, 0, 0, 0⟩, 0⟩

/-- A cached forecast row used by the C3 witness. -/
def frow0 : ForecastCacheRow := ⟨"Santiago", ⟨"Santiago", [], 0⟩, 0⟩

/-- A forecast environment with a fresh cached row. -/
def fenv0 : ForecastEnv := ⟨"Santiago", [frow0], false, none, 200, [], false, 0⟩

/-- Witness for C3 at concrete environments with one fresh row each. -/
theorem C3_witness :
    (∃ r : WeatherData, r.location = cenv0.location ∧
      cenv0.nowMs - 30 * 60 * 1000 ≤ r.fetched_at ∧
      currentHandler cenv0 = ⟨200, .success r "cache"
        "Data from cache (less than 30 minutes old)", 0, [], false⟩) ∧
    (∃ r : ForecastCacheRow, r.location = fenv0.location ∧
      fenv0.nowMs - 6 * 60 * 60 * 1000 ≤ r.fetched_at ∧
      forecastHandler fenv0 = ⟨200, .success r.forecast_data "cache"
        "Data from cache (less than 6 hours old)", 0, [], false⟩) :=
  C3_cache_hit cenv0 fenv0
    ⟨w0, by simp [cenv0], by simp [cenv0, w0], by norm_num [cenv0, w0]⟩ rfl
    ⟨frow0, by simp [fenv0], by simp [fenv0, frow0], by norm_num [fenv0, frow0]⟩
    rfl

/-- A keyless, empty-cache current-weather environment (mock path). -/
def cenvM : CurrentEnv :=
  ⟨"Santiago", [], false, none, 200, ⟨none, none, []⟩, false, ⟨0, 0, 0, 0, 0⟩, 0⟩

/-- Witness for C5 at a concrete keyless environment. -/
theorem C5_witness :
    currentHandler cenvM = ⟨200,
      .success (mkMock cenvM.location cenvM.rand cenvM.nowMs) "mock"
        "Mock data - Add OPENWEATHER_API_KEY secret for real weather data",
      0, [mkMock cenvM.location cenvM.rand cenvM.nowMs], false⟩ ∧
    (∃ t, (mkMock cenvM.location cenvM.rand cenvM.nowMs).temperature = some t ∧
      18 ≤ t ∧ t ≤ 28) :=
  ⟨(C5_mock_path cenvM (by simp [cenvM]) rfl
      (by norm_num [randInRange, cenvM])).1,
    (C5_mock_path cenvM (by simp [cenvM]) rfl
      (by norm_num [randInRange, cenvM])).2.1⟩

/-- A keyed, empty-cache current-weather environment whose upstream
answers 404. -/
def cenvE : CurrentEnv :=
  ⟨"Santiago", [], false, some "k", 404, ⟨none, none, []⟩, false,
    ⟨0, 0, 0, 0, 0⟩, 0⟩

/-- A keyed, empty-cache forecast environment whose upstream answers 404. -/
def fenvE : ForecastEnv := ⟨"Santiago", [], false, some "k", 404, [], false, 0⟩

/-- Witness for C6 at concrete 404-answering environments. -/
theorem C6_witness :
    currentHandler cenvE = ⟨500,
      .failure ("Weather API error: " ++ toString cenvE.upstreamStatus)
        "Failed to fetch weather data", 1, [], false⟩ ∧
    forecastHandler fenvE = ⟨500,
      .failure ("Weather API error: " ++ toString fenvE.upstreamStatus)
        "Failed to fetch weather data", 1, [], false⟩ :=
  C6_upstream_status cenvE fenvE (by simp [cenvE]) ⟨"k", rfl⟩ rfl
    (by simp [fenvE]) ⟨"k", rfl⟩ rfl

/-- A keyed, empty-cache current-weather environment with an ok upstream. -/
def cenvA : CurrentEnv :=
  ⟨"Santiago", [], false, some "k", 200,
    ⟨some ⟨some 21, some 60⟩, some ⟨some 3, some 90⟩, ["cielo claro"]⟩, false,
    ⟨0, 0, 0, 0, 0⟩, 0⟩

/-- A keyed, empty-cache forecast environment with an ok upstream. -/
def fenvA : ForecastEnv :=
  ⟨"Santiago", [], false, some "k", 200, [⟨90000, 20, "x", 5⟩], false, 0⟩

/-- Witness for C7 at concrete successful-fetch environments. -/
theorem C7_witness :
    (currentHandler { cenvA with insertFailure := true }).status = 200 ∧
    (currentHandler { cenvA with insertFailure := true }).body =
      (currentHandler { cenvA with insertFailure := false }).body ∧
    (forecastHandler { fenvA with insertFailure := true }).status = 200 ∧
    (forecastHandler { fenvA with insertFailure := true }).body =
      (forecastHandler { fenvA with insertFailure := false }).body := by
  have h := C7_insert_failure_ignored cenvA fenvA (by simp [cenvA]) ⟨"k", rfl⟩
    rfl (by simp [fenvA]) ⟨"k", rfl⟩ rfl
  exact ⟨h.1.1, h.1.2.2.1, h.2.1, h.2.2.2.1⟩
